import Mathlib

/-!
Verification of a FAT12/FAT16 volume analyzer and recovery tool.

Byte buffers are modelled as `List Nat` (each element one byte, 0..255).
Raw sector reads become an explicit function parameter
`rs : Int → Nat → Nat → List Nat` standing for
`read_volume_sectors(drive, start_sector, num_sectors, bytes_per_sector)`
with the drive handle fixed; each lemma supplies the hypotheses it needs
about that function (normally that a read of `n` sectors yields
`n * bytes_per_sector` bytes, the "partial reads are an error" contract
of the block-device adapter). Fallible Python functions are embedded
with `Option`/`Except` results; an uncaught Python exception is a
distinguished error value, documented at each definition.
-/

namespace FatRec

/-! ## Definitions -/

/-- Little-endian 16-bit read at byte offset `i`, the embedding of
Python `struct.unpack("<H", buf[i:i+2])[0]`. Out-of-range bytes default
to 0; each embedded function that would crash on a short buffer checks
the buffer length itself before using this. -/
def le16 (l : List Nat) (i : Nat) : Nat :=
  l.getD i 0 + 256 * l.getD (i + 1) 0

/-- Little-endian 32-bit read at byte offset `i`, the embedding of
Python `struct.unpack("<I", buf[i:i+4])[0]`. -/
def le32 (l : List Nat) (i : Nat) : Nat :=
  l.getD i 0 + 256 * l.getD (i + 1) 0 + 65536 * l.getD (i + 2) 0
    + 16777216 * l.getD (i + 3) 0

/-- Embedding of `read_fat_entry(fat, entry_number, fat_type)` from
src/fat/reader.py lines 55-77. The FAT12 branch reads 16 bits
little-endian at byte offset `n + n // 2` and keeps the low 12 bits for
even `n` and the bits above the low nibble for odd `n`; any string other
than "FAT12" takes the FAT16 branch (offset `2 n`, 16 bits LE). Both
branches return 0 when the two needed bytes would run past the end of
the buffer. -/
def read_fat_entry (fat : List Nat) (entry_number : Nat) (fat_type : String) : Nat :=
  if fat_type = "FAT12" then
    let byte_pos := entry_number + entry_number / 2
    if byte_pos + 2 > fat.length then 0
    else
      let value := le16 fat byte_pos
      if entry_number % 2 = 0 then value &&& 0x0FFF
      else value >>> 4
  else
    let pos := entry_number * 2
    if pos + 2 > fat.length then 0
    else le16 fat pos

/-- Number of FAT bytes the entry read needs to have available:
`n + n/2 + 2` for FAT12, `2 n + 2` otherwise. -/
def fat_entry_bytes_needed (entry_number : Nat) (fat_type : String) : Nat :=
  if fat_type = "FAT12" then entry_number + entry_number / 2 + 2
  else entry_number * 2 + 2

/-- End-of-chain threshold chosen by `read_cluster_chain`
(src/fat/directory.py lines 11-15): 0xFF8 for the string "FAT12",
0xFFF8 for anything else. -/
def end_marker (fat_type : String) : Nat :=
  if fat_type = "FAT12" then 0xFF8 else 0xFFF8

/-- Loop body of `read_cluster_chain` (src/fat/directory.py lines
17-39), with an explicit fuel argument. One iteration: if the current
cluster is below the end marker, read its `sectors_per_cluster` sectors
at `data_region_start_sector + (current - 2) * sectors_per_cluster`,
append them to the accumulator, look up the next cluster in the FAT,
and stop returning the accumulated bytes when that lookup gives 0 or
more than 10 MiB have been accumulated. `none` models the Python loop
not terminating, which the fuel value chosen in `read_cluster_chain`
rules out whenever sector reads return the requested number of bytes
(see `read_cluster_chain_terminates_bounded`). -/
def read_cluster_chain_aux (rs : Int → Nat → Nat → List Nat) (fat : List Nat)
    (fat_type : String) (ds : Int) (spc bps : Nat) :
    Nat → Nat → List Nat → Option (List Nat)
  | 0, _, _ => none
  | fuel + 1, current, acc =>
    if current < end_marker fat_type then
      let cluster_data := rs (ds + ((current : Int) - 2) * (spc : Int)) spc bps
      let acc2 := acc ++ cluster_data
      let next := read_fat_entry fat current fat_type
      if next = 0 ∨ acc2.length > 10 * 1024 * 1024 then some acc2
      else read_cluster_chain_aux rs fat fat_type ds spc bps fuel next acc2
    else some acc

/-- Embedding of `read_cluster_chain(drive_letter, start_cluster,
fat_data, fat_type, data_region_start_sector, sectors_per_cluster,
bytes_per_sector)` from src/fat/directory.py lines 5-39. Returns the
empty buffer immediately for `start_cluster <= 0`, otherwise follows
the FAT chain accumulating cluster data until the end marker, a zero
FAT entry, or the 10 MiB cap. The fuel `10 * 1024 * 1024 + 3` is enough
for every execution in which each cluster read returns at least one
byte, because the loop continues only while at most 10 MiB have been
accumulated. -/
def read_cluster_chain (rs : Int → Nat → Nat → List Nat) (start_cluster : Int)
    (fat : List Nat) (fat_type : String) (ds : Int) (spc bps : Nat) :
    Option (List Nat) :=
  if start_cluster ≤ 0 then some []
  else
    read_cluster_chain_aux rs fat fat_type ds spc bps
      (10 * 1024 * 1024 + 3) start_cluster.toNat []

/-- Zero-padded two-digit decimal rendering, the embedding of the
Python format specifier `{v:02d}` for values below 100. -/
def pad2 (n : Nat) : String :=
  if n < 10 then "0" ++ toString n else toString n

/-- Embedding of `format_time` from src/fat/utils.py lines 70-76. -/
def format_time (t : Nat) : String :=
  pad2 ((t >>> 11) &&& 0x1F) ++ ":" ++ pad2 ((t >>> 5) &&& 0x3F) ++ ":" ++
    pad2 ((t &&& 0x1F) * 2)

/-- Embedding of `format_date` from src/fat/utils.py lines 78-84. -/
def format_date (d : Nat) : String :=
  toString (((d >>> 9) &&& 0x7F) + 1980) ++ "-" ++ pad2 ((d >>> 5) &&& 0x0F) ++
    "-" ++ pad2 (d &&& 0x1F)

/-- A decoded short-form directory entry, the dictionary built by
`parse_directory_entries` in src/fat/directory.py lines 153-164. -/
structure DirEntry where
  name : String
  extension : String
  short_name : String
  full_name : String
  is_directory : Bool
  start_cluster : Nat
  file_size : Nat
  creation_time : String
  creation_date : String
  attr : Nat
  deriving Repr, DecidableEq

/-- The byte positions read by the three LFN character loops of
`parse_directory_entries` (src/fat/directory.py lines 72-83):
`range(1, 11, 2)`, `range(14, 26, 2)` and `range(28, 32, 2)`. The code
keeps only the low byte of each UCS-2 character. -/
def lfn_byte_positions : List Nat :=
  [1, 3, 5, 7, 9, 14, 16, 18, 20, 22, 24, 28, 30]

/-- The name fragment one LFN slot contributes: the bytes at the LFN
positions with 0x00 and 0xFF bytes dropped, each remaining byte turned
into the character with that code (Python `chr`). -/
def lfn_part (entry : List Nat) : String :=
  (((lfn_byte_positions.map (fun j => entry.getD j 0)).filter
      (fun b => !(b == 0) && !(b == 0xFF))).map Char.ofNat).asString

/-- Embedding of Python `str.strip()`: drop whitespace characters from
both ends. -/
def py_strip (s : String) : String :=
  (((s.toList.dropWhile Char.isWhitespace).reverse.dropWhile
    Char.isWhitespace).reverse).asString

/-- Embedding of Python `str.lower()` for the ASCII strings handled
here. -/
def py_lower (s : String) : String :=
  (s.toList.map Char.toLower).asString

/-- Cleaning applied to the 8.3 name and extension bytes
(src/fat/directory.py lines 100-112): keep bytes that are not 0xFF and
lie in 0x20..0x7E, then strip surrounding whitespace. -/
def clean_83 (bytes : List Nat) : String :=
  py_strip (((bytes.filter
      (fun b => !(b == 0xFF) && decide (0x20 ≤ b) && decide (b < 0x7F))).map
    Char.ofNat).asString)

/-- Cleaning applied to the chosen display name (src/fat/directory.py
line 124): keep characters that are not 0xFF and are either at or above
0x20 or a tab. -/
def clean_full (s : String) : String :=
  (s.toList.filter
    (fun c => !(c.toNat == 0xFF) && (decide (0x20 ≤ c.toNat) || c.toNat == 0x09))).asString

/-- Decoding of one non-deleted, non-LFN 32-byte record given the
accumulated long-filename string, the embedding of src/fat/directory.py
lines 95-164. The display name is the accumulated LFN when it is
non-empty and the cleaned 8.3 name otherwise, then cleaned again;
`.` and `..` keep their short name. No checksum of any kind is
computed. -/
def decode_short_entry (entry : List Nat) (current_lfn : String) : DirEntry :=
  let attr := entry.getD 11 0
  let short_name := clean_83 (entry.take 8)
  let short_ext := clean_83 ((entry.drop 8).take 3)
  let short_full_name :=
    if short_ext ≠ "" then short_name ++ "." ++ short_ext else short_name
  let chosen := if current_lfn ≠ "" then current_lfn else short_full_name
  let cleaned := clean_full chosen
  let full_name :=
    if short_name = "." ∨ short_name = ".." then short_name else cleaned
  { name := short_name
    extension := short_ext
    short_name := short_full_name
    full_name := full_name
    is_directory := attr &&& 0x10 ≠ 0
    start_cluster := le16 entry 20 * 65536 + le16 entry 26
    file_size := le32 entry 28
    creation_time := format_time (le16 entry 14)
    creation_date := format_date (le16 entry 16)
    attr := attr }

/-- Embedding of the record loop of `parse_directory_entries`
(src/fat/directory.py lines 41-166), carrying the current LFN
accumulator. The loop consumes 32-byte records while at least 32 bytes
remain: a first byte 0x00 skips the record (the accumulator is kept), a
first byte 0xE5 skips it and clears the accumulator, attribute 0x0F
accumulates an LFN fragment (prepended unless bit 0x40 of byte 0 is
set), a volume label (attribute bit 0x08) is dropped, and any other
record is emitted via `decode_short_entry`; emitting or dropping a
short record clears the accumulator. -/
def parse_directory_entries_from : List Nat → String → List DirEntry
  | b0 :: b1 :: b2 :: b3 :: b4 :: b5 :: b6 :: b7 :: b8 :: b9 :: b10 :: b11 ::
      b12 :: b13 :: b14 :: b15 :: b16 :: b17 :: b18 :: b19 :: b20 :: b21 ::
      b22 :: b23 :: b24 :: b25 :: b26 :: b27 :: b28 :: b29 :: b30 :: b31 ::
      rest, current_lfn =>
    let entry := [b0, b1, b2, b3, b4, b5, b6, b7, b8, b9, b10, b11, b12, b13,
      b14, b15, b16, b17, b18, b19, b20, b21, b22, b23, b24, b25, b26, b27,
      b28, b29, b30, b31]
    if b0 = 0x00 then
      parse_directory_entries_from rest current_lfn
    else if b0 = 0xE5 then
      parse_directory_entries_from rest ""
    else if b11 = 0x0F then
      let part := lfn_part entry
      let lfn2 := if b0 &&& 0x40 ≠ 0 then part else part ++ current_lfn
      parse_directory_entries_from rest lfn2
    else
      let e := decode_short_entry entry current_lfn
      if e.attr &&& 0x08 ≠ 0 then parse_directory_entries_from rest ""
      else e :: parse_directory_entries_from rest ""
  | _, _ => []

/-- Embedding of `parse_directory_entries(directory_data)` from
src/fat/directory.py: the loop starts with an empty LFN accumulator. -/
def parse_directory_entries (data : List Nat) : List DirEntry :=
  parse_directory_entries_from data ""

/-- Modelled from the spec (section 4.6 and the C3 sources): the LFN
checksum of an 11-byte short name, "sum of bytes rotated right" — each
step rotates the running sum right by one bit within 8 bits and adds
the next byte. The source never computes this; the definition exists to
compare the source's behavior with the specified checksum gate. -/
def lfn_checksum_spec (short_bytes : List Nat) : Nat :=
  short_bytes.foldl (fun sum b => (((sum &&& 1) <<< 7) + (sum >>> 1) + b) % 256) 0

/-- Failure cases of `extract_fat_info` (src/fat/utils.py lines 4-52):
the two explicit `ValueError` raises (short buffer, missing 0x55AA
signature) and the uncaught `ZeroDivisionError` when `bytes_per_sector`
or `sectors_per_cluster` is 0. -/
inductive ExtractError where
  | shortBuffer
  | badSignature
  | divisionByZero
  deriving Repr, DecidableEq

/-- The dictionary returned by `extract_fat_info` (src/fat/utils.py
lines 55-68). `total_clusters` is an `Int` because the Python value
`(total_sectors - first_data_sector) // sectors_per_cluster` can be
negative (floor division). -/
structure FatInfo where
  bytes_per_sector : Nat
  sectors_per_cluster : Nat
  reserved_sectors : Nat
  num_fats : Nat
  root_entries : Nat
  total_sectors : Nat
  sectors_per_fat : Nat
  fat_type : Nat
  first_data_sector : Int
  total_clusters : Int
  root_dir_sectors : Nat
  media_descriptor : Nat
  deriving Repr, DecidableEq

/-- Embedding of `extract_fat_info(boot_sector)` from src/fat/utils.py
lines 4-68. Note the FAT-type classification at lines 40-46 compares
`total_sectors` — not `total_clusters` — against 4085 and 65525. -/
def extract_fat_info (boot_sector : List Nat) : Except ExtractError FatInfo :=
  if boot_sector.length < 512 then .error .shortBuffer
  else if (boot_sector.drop 510).take 2 ≠ [0x55, 0xAA] then .error .badSignature
  else
    let bytes_per_sector := le16 boot_sector 11
    let sectors_per_cluster := boot_sector.getD 13 0
    let reserved_sectors := le16 boot_sector 14
    let num_fats := boot_sector.getD 16 0
    let root_entries := le16 boot_sector 17
    let total_sectors_small := le16 boot_sector 19
    let media_descriptor := boot_sector.getD 21 0
    let sectors_per_fat := le16 boot_sector 22
    let total_sectors_large := le32 boot_sector 32
    let total_sectors :=
      if total_sectors_small = 0 then total_sectors_large else total_sectors_small
    let fat_type :=
      if total_sectors < 4085 then 12
      else if total_sectors < 65525 then 16
      else 32
    if bytes_per_sector = 0 ∨ sectors_per_cluster = 0 then .error .divisionByZero
    else
      let root_dir_sectors :=
        (root_entries * 32 + (bytes_per_sector - 1)) / bytes_per_sector
      let first_data_sector : Int :=
        reserved_sectors + num_fats * sectors_per_fat + root_dir_sectors
      let data_sectors : Int := (total_sectors : Int) - first_data_sector
      let total_clusters : Int := Int.fdiv data_sectors sectors_per_cluster
      .ok
        { bytes_per_sector := bytes_per_sector
          sectors_per_cluster := sectors_per_cluster
          reserved_sectors := reserved_sectors
          num_fats := num_fats
          root_entries := root_entries
          total_sectors := total_sectors
          sectors_per_fat := sectors_per_fat
          fat_type := fat_type
          first_data_sector := first_data_sector
          total_clusters := total_clusters
          root_dir_sectors := root_dir_sectors
          media_descriptor := media_descriptor }

/-- Embedding of `BootSectorParser._determine_fat_type` from
src/boot_sector.py lines 102-111 with the thresholds
`FAT12_MAX_CLUSTERS = 4085` and `FAT16_MAX_CLUSTERS = 65525` from
src/constants.py: this classifier does use `total_clusters`. -/
def determine_fat_type (total_clusters : Int) : Nat :=
  if total_clusters < 4085 then 12
  else if total_clusters < 65525 then 16
  else 32

/-- One write step of the `recover_deleted_file` loop
(src/recovery/directory_recovery.py lines 150-158): append the whole
cluster, except that a cluster reaching past `file_size` is cut to the
remaining byte count. -/
def rdf_write (file_size : Nat) (acc cluster_data : List Nat) : List Nat :=
  if acc.length + cluster_data.length > file_size then
    acc ++ cluster_data.take (file_size - acc.length)
  else acc ++ cluster_data

/-- The cluster loop of `recover_deleted_file`
(src/recovery/directory_recovery.py lines 142-158) over the list of
cluster indices `range(clusters_needed)`: cluster `i` is read at sector
`start_sector + i * sectors_per_cluster`. -/
def rdf_loop (rs : Int → Nat → Nat → List Nat) (start_sector : Int)
    (spc bps file_size : Nat) : List Nat → List Nat → List Nat
  | [], acc => acc
  | i :: is, acc =>
    rdf_loop rs start_sector spc bps file_size is
      (rdf_write file_size acc (rs (start_sector + (i : Int) * (spc : Int)) spc bps))

/-- Embedding of `recover_deleted_file(drive_letter, boot_sector,
start_cluster, file_size, output_path)` from
src/recovery/directory_recovery.py lines 111-169.
`Except.error ()` models an uncaught Python exception (boot sector too
short for the field reads, or `bytes_per_sector = 0` making the
`root_dir_sectors` division at line 121 raise before the try block);
`.ok none` models `return False` with no file data written (start
cluster below 2, or the cluster-size division raising inside the try
block); `.ok (some out)` models success with `out` written to the
output file. -/
def recover_deleted_file (rs : Int → Nat → Nat → List Nat)
    (boot_sector : List Nat) (start_cluster : Int) (file_size : Nat) :
    Except Unit (Option (List Nat)) :=
  if boot_sector.length < 24 then .error ()
  else
    let bytes_per_sector := le16 boot_sector 11
    let sectors_per_cluster := boot_sector.getD 13 0
    let reserved_sectors := le16 boot_sector 14
    let root_entries := le16 boot_sector 17
    let sectors_per_fat := le16 boot_sector 22
    let num_fats := boot_sector.getD 16 0
    if bytes_per_sector = 0 then .error ()
    else
      let root_dir_sectors :=
        (root_entries * 32 + (bytes_per_sector - 1)) / bytes_per_sector
      let data_start_sector :=
        reserved_sectors + num_fats * sectors_per_fat + root_dir_sectors
      if start_cluster < 2 then .ok none
      else
        let bytes_per_cluster := bytes_per_sector * sectors_per_cluster
        if bytes_per_cluster = 0 then .ok none
        else
          let start_sector : Int :=
            (data_start_sector : Int) + (start_cluster - 2) * (sectors_per_cluster : Int)
          let clusters_needed := (file_size + bytes_per_cluster - 1) / bytes_per_cluster
          .ok (some (rdf_loop rs start_sector sectors_per_cluster bytes_per_sector
            file_size (List.range clusters_needed) []))

/-- A candidate found by the boot-sector scan of `recover_boot_sector`
(src/recovery/boot_recovery.py lines 41-48). `fat_type` is `none` when
`extract_fat_info` raised (the bare `except: pass`). -/
structure BootCandidate where
  sector : Nat
  data : List Nat
  oem_name : List Nat
  bytes_per_sector : Nat
  sectors_per_cluster : Nat
  fat_type : Option Nat
  deriving Repr, DecidableEq

/-- Embedding of the candidate scan of `recover_boot_sector`
(src/recovery/boot_recovery.py lines 19-48): for each of the sectors
`range(10)`, i.e. sectors 0 through 9, a sector whose last two bytes
are 0x55AA and whose `bytes_per_sector` and `sectors_per_cluster` lie
in the valid sets becomes a candidate; `num_fats` is never examined.
`volume` maps a sector number to the 512 bytes read there. -/
def recover_boot_candidates (volume : Nat → List Nat) : List BootCandidate :=
  (List.range 10).filterMap (fun sector =>
    let data := volume sector
    if (data.drop 510).take 2 = [0x55, 0xAA] then
      if le16 data 11 ∈ [512, 1024, 2048, 4096] ∧
          data.getD 13 0 ∈ [1, 2, 4, 8, 16, 32, 64, 128] then
        some
          { sector := sector
            data := data
            oem_name := (data.drop 3).take 8
            bytes_per_sector := le16 data 11
            sectors_per_cluster := data.getD 13 0
            fat_type := (extract_fat_info data).toOption.map FatInfo.fat_type }
      else none
    else none)

/-- One backup-sector probe of `rebuild_boot_sector`
(src/recovery/boot_recovery.py lines 88-106): accept the sector when
its last two bytes are 0x55AA, `bytes_per_sector` is valid and
`sectors_per_cluster` is in the smaller set {1,2,4,8,16,32}; `num_fats`
is never examined. -/
def rebuild_backup_check (volume : Nat → List Nat) (backup_sector : Nat) :
    Option (Nat × List Nat) :=
  let data := volume backup_sector
  if (data.drop 510).take 2 = [0x55, 0xAA] then
    if le16 data 11 ∈ [512, 1024, 2048, 4096] ∧
        data.getD 13 0 ∈ [1, 2, 4, 8, 16, 32] then
      some (backup_sector, data)
    else none
  else none

/-- The backup-discovery loop of `rebuild_boot_sector`
(src/recovery/boot_recovery.py lines 86-106): probe sector 6, then
sector 12, returning the first acceptable backup. -/
def rebuild_backup_candidate (volume : Nat → List Nat) : Option (Nat × List Nat) :=
  match rebuild_backup_check volume 6 with
  | some r => some r
  | none => rebuild_backup_check volume 12

/-- The three code paths of the program that write sector 0 of the
device: the `--apply-boot` flow (src/main.py lines 189-196 calling
`apply_boot_sector`, src/fat/utils.py lines 164-214), the
`--interactive-repair` flow (`interactive_boot_sector_repair`,
src/recovery/boot_recovery.py lines 634-652), and the monolithic
analyzer's repair flow (`write_boot_sector` in src/fat_recovery.py
lines 491-530 and `_write_boot_sector` in src/fat_analyzer.py, which
share the same prompt). `compare_and_recover_boot` writes only host
files, never the device. -/
inductive WriteFlow where
  | applyBoot
  | interactiveRepair
  | monolithicRepair
  deriving Repr, DecidableEq

/-- Confirmation test of the monolithic repair flow
(src/fat_recovery.py line 508-510): `input(...).lower().strip()` is
accepted when it is in `['yes', 'y']`. -/
def write_boot_sector_confirm_ok (s : String) : Bool :=
  decide (py_strip (py_lower s) ∈ (["yes", "y"] : List String))

/-- Confirmation test of `interactive_boot_sector_repair`
(src/recovery/boot_recovery.py lines 635-638):
`input(...).strip().lower()` must equal exactly `'y'`. -/
def interactive_repair_confirm_ok (s : String) : Bool :=
  py_lower (py_strip s) == "y"

/-- Whether the flow writes sector 0 of the device, as a function of
the string the user types at the flow's confirmation prompt (ignored by
flows that never prompt). The `--apply-boot` flow reads no input at
all: `main` calls `apply_boot_sector`, which opens the device and
writes immediately (modelled on its success path, i.e. the boot file
exists and the device opens). The other two flows write exactly when
their confirmation test accepts. -/
def flow_writes_sector0 : WriteFlow → String → Bool
  | .applyBoot, _ => true
  | .interactiveRepair, confirm => interactive_repair_confirm_ok confirm
  | .monolithicRepair, confirm => write_boot_sector_confirm_ok confirm

/-- One signature record of `FILE_SIGNATURES`
(src/recovery/signature_db.py): a Python dict with keys `header`,
optionally `footer`, and `extension`. -/
structure FileSig where
  header : List Nat
  footer : Option (List Nat)
  extension : String
  deriving Repr, DecidableEq

/-- Embedding of `FILE_SIGNATURES` from src/recovery/signature_db.py. -/
def FILE_SIGNATURES : List (String × List FileSig) :=
  [("JPEG", [⟨[0xFF, 0xD8, 0xFF, 0xE0], some [0xFF, 0xD9], "jpg"⟩,
             ⟨[0xFF, 0xD8, 0xFF, 0xE1], some [0xFF, 0xD9], "jpg"⟩]),
   ("PNG", [⟨[0x89, 0x50, 0x4E, 0x47, 0x0D, 0x0A, 0x1A, 0x0A],
             some [0x49, 0x45, 0x4E, 0x44, 0xAE, 0x42, 0x60, 0x82], "png"⟩]),
   ("GIF", [⟨[0x47, 0x49, 0x46, 0x38, 0x37, 0x61], some [0x00, 0x3B], "gif"⟩,
            ⟨[0x47, 0x49, 0x46, 0x38, 0x39, 0x61], some [0x00, 0x3B], "gif"⟩]),
   ("PDF", [⟨[0x25, 0x50, 0x44, 0x46], some [0x25, 0x25, 0x45, 0x4F, 0x46], "pdf"⟩]),
   ("DOC", [⟨[0xD0, 0xCF, 0x11, 0xE0, 0xA1, 0xB1, 0x1A, 0xE1], none, "doc"⟩]),
   ("ZIP", [⟨[0x50, 0x4B, 0x03, 0x04], some [0x50, 0x4B, 0x05, 0x06], "zip"⟩]),
   ("EXE", [⟨[0x4D, 0x5A], none, "exe"⟩]),
   ("TXT", [⟨[0xEF, 0xBB, 0xBF], none, "txt"⟩,
            ⟨[0xFF, 0xFE], none, "txt"⟩,
            ⟨[0xFE, 0xFF], none, "txt"⟩])]

/-- The key list of one signature dict in Python insertion order:
`header`, then `footer` when present, then `extension`. Iterating a
Python dict (`for sig in sigs` where `sigs` is a dict) yields exactly
these key strings. -/
def sig_dict_keys (s : FileSig) : List String :=
  if s.footer.isSome then ["header", "footer", "extension"]
  else ["header", "extension"]

/-- Embedding of the Python substring test `needle in hay` on
strings. -/
def py_in_str (needle hay : String) : Bool :=
  (List.range (hay.toList.length + 1)).any
    (fun i => needle.toList.isPrefixOf (hay.toList.drop i))

/-- Embedding of the signature selection of `carve_file`
(src/recovery/carving.py lines 44-45):
`next((sig for sigs in FILE_SIGNATURES.get(file_type, []) for sig in
sigs if 'extension' in sig), None)`. The inner `for sig in sigs` loop
iterates over the KEYS of each signature dict, and `'extension' in sig`
is a substring test on each key string, so the generator yields the
string "extension" — not a signature dict — for every known file
type. -/
def carve_sig_selection (file_type : String) : Option String :=
  (((FILE_SIGNATURES.lookup file_type).getD []).flatMap sig_dict_keys).find?
    (fun k => py_in_str "extension" k)

/-- Outcome of `carve_file` (src/recovery/carving.py lines 42-89)
before any device access: an unknown file type prints a message and
returns False; a known file type reaches
`footer = sig_info.get('footer', None)` with `sig_info` bound to the
string "extension" and raises `AttributeError` (`str` has no attribute
`get`), outside the try block, so nothing is carved. -/
inductive CarveOutcome where
  | unknownType
  | attributeError
  deriving Repr, DecidableEq

/-- Embedding of `carve_file(drive_letter, start_sector, output_path,
file_type, max_size, bytes_per_sector)` from src/recovery/carving.py
lines 42-89. The sector-reading carve loop of lines 54-77 is
unreachable: execution never gets past the signature selection for any
input, so the remaining parameters cannot influence the outcome. -/
def carve_file (_start_sector : Nat) (file_type : String)
    (_max_size _bytes_per_sector : Nat) : CarveOutcome :=
  match carve_sig_selection file_type with
  | none => .unknownType
  | some _ => .attributeError

/-! ## Theorems -/

/-- C8: the FAT12 entry read uses byte offset `n + n/2`, reads 16 bits
little-endian, takes the low 12 bits (`value mod 2^12`) when `n` is even
and the upper 12 bits (`value / 2^4`) when `n` is odd; and for every
variant, when the needed bytes extend past the end of the buffer the
read returns 0. -/
theorem fat_entry_read_spec :
    (∀ (fat : List Nat) (n : Nat),
      fat_entry_bytes_needed n "FAT12" ≤ fat.length →
        read_fat_entry fat n "FAT12" =
          (if n % 2 = 0 then le16 fat (n + n / 2) % 2 ^ 12
           else le16 fat (n + n / 2) / 2 ^ 4)) ∧
    (∀ (fat : List Nat) (n : Nat) (ft : String),
      fat.length < fat_entry_bytes_needed n ft →
        read_fat_entry fat n ft = 0) := by
  constructor
  · intro fat n h
    simp only [fat_entry_bytes_needed, reduceIte] at h
    simp only [read_fat_entry, reduceIte]
    have hlt : ¬ (n + n / 2 + 2 > fat.length) := by omega
    simp only [hlt, if_false]
    by_cases hpar : n % 2 = 0
    · simp [hpar, Nat.and_pow_two_sub_one_eq_mod (le16 fat (n + n / 2)) 12]
    · simp [hpar, Nat.shiftRight_eq_div_pow]
  · intro fat n ft h
    simp only [fat_entry_bytes_needed] at h
    simp only [read_fat_entry]
    by_cases hft : ft = "FAT12"
    · simp only [hft, reduceIte] at h ⊢
      have : n + n / 2 + 2 > fat.length := by omega
      simp [this]
    · simp only [hft, if_false] at h ⊢
      have : n * 2 + 2 > fat.length := by omega
      simp [this]

/-- Witness for C8 at concrete inputs: a 4-byte FAT, entry 1 (odd, in
range, upper 12 bits) and entry 5 (out of range, returns 0). -/
theorem fat_entry_read_spec_witness :
    (fat_entry_bytes_needed 1 "FAT12" ≤ [0xF8, 0xFF, 0x34, 0x12].length ∧
      read_fat_entry [0xF8, 0xFF, 0x34, 0x12] 1 "FAT12" =
        le16 [0xF8, 0xFF, 0x34, 0x12] (1 + 1 / 2) / 2 ^ 4) ∧
    ([0xF8, 0xFF, 0x34, 0x12].length < fat_entry_bytes_needed 5 "FAT16" ∧
      read_fat_entry [0xF8, 0xFF, 0x34, 0x12] 5 "FAT16" = 0) := by
  refine ⟨⟨by decide, ?_⟩, ⟨by decide, ?_⟩⟩
  · have h := fat_entry_read_spec.1 [0xF8, 0xFF, 0x34, 0x12] 1 (by decide)
    simpa using h
  · exact fat_entry_read_spec.2 [0xF8, 0xFF, 0x34, 0x12] 5 "FAT16" (by decide)

/-- Unfolding equation for one loop iteration of the chain reader. -/
theorem read_cluster_chain_aux_succ (rs : Int → Nat → Nat → List Nat)
    (fat : List Nat) (fat_type : String) (ds : Int) (spc bps : Nat)
    (fuel current : Nat) (acc : List Nat) :
    read_cluster_chain_aux rs fat fat_type ds spc bps (fuel + 1) current acc =
      if current < end_marker fat_type then
        let cluster_data := rs (ds + ((current : Int) - 2) * (spc : Int)) spc bps
        let acc2 := acc ++ cluster_data
        let next := read_fat_entry fat current fat_type
        if next = 0 ∨ acc2.length > 10 * 1024 * 1024 then some acc2
        else read_cluster_chain_aux rs fat fat_type ds spc bps fuel next acc2
      else some acc := rfl

/-- With full-length sector reads of at least one byte per cluster, the
fuelled loop cannot run out of fuel: each iteration that continues has
accumulated at most 10 MiB and grows the accumulator by a cluster. -/
theorem read_cluster_chain_aux_isSome (rs : Int → Nat → Nat → List Nat)
    (fat : List Nat) (fat_type : String) (ds : Int) (spc bps : Nat)
    (hlen : ∀ s, (rs s spc bps).length = spc * bps) (hpos : 1 ≤ spc * bps) :
    ∀ (fuel current : Nat) (acc : List Nat),
      acc.length ≤ 10 * 1024 * 1024 →
      10 * 1024 * 1024 + 1 - acc.length < fuel →
      (read_cluster_chain_aux rs fat fat_type ds spc bps fuel current acc).isSome := by
  intro fuel
  induction fuel with
  | zero => intro current acc _ hfuel; omega
  | succ fuel ih =>
    intro current acc hacc hfuel
    rw [read_cluster_chain_aux_succ]
    by_cases hcur : current < end_marker fat_type
    · simp only [hcur, if_true]
      set acc2 := acc ++ rs (ds + ((current : Int) - 2) * (spc : Int)) spc bps with hacc2
      have hlen2 : acc2.length = acc.length + spc * bps := by
        simp [hacc2, hlen]
      by_cases hstop :
          read_fat_entry fat current fat_type = 0 ∨ acc2.length > 10 * 1024 * 1024
      · simp [hstop]
      · simp only [hstop, if_false]
        have h10 : acc2.length ≤ 10 * 1024 * 1024 := by
          rcases not_or.mp hstop with ⟨-, h⟩; omega
        exact ih _ acc2 h10 (by omega)
    · simp [hcur]

/-- Any result of the fuelled loop started from an accumulator of at
most 10 MiB has length at most 10 MiB plus one cluster. -/
theorem read_cluster_chain_aux_length_le (rs : Int → Nat → Nat → List Nat)
    (fat : List Nat) (fat_type : String) (ds : Int) (spc bps : Nat)
    (hlen : ∀ s, (rs s spc bps).length = spc * bps) :
    ∀ (fuel current : Nat) (acc res : List Nat),
      acc.length ≤ 10 * 1024 * 1024 →
      read_cluster_chain_aux rs fat fat_type ds spc bps fuel current acc = some res →
      res.length ≤ 10 * 1024 * 1024 + spc * bps := by
  intro fuel
  induction fuel with
  | zero => intro current acc res _ h; simp [read_cluster_chain_aux] at h
  | succ fuel ih =>
    intro current acc res hacc h
    rw [read_cluster_chain_aux_succ] at h
    by_cases hcur : current < end_marker fat_type
    · simp only [hcur, if_true] at h
      set acc2 := acc ++ rs (ds + ((current : Int) - 2) * (spc : Int)) spc bps with hacc2
      have hlen2 : acc2.length = acc.length + spc * bps := by
        simp [hacc2, hlen]
      by_cases hstop :
          read_fat_entry fat current fat_type = 0 ∨ acc2.length > 10 * 1024 * 1024
      · simp only [hstop, if_true, Option.some.injEq] at h
        rw [← h, hlen2]
        omega
      · simp only [hstop, if_false] at h
        have h10 : acc2.length ≤ 10 * 1024 * 1024 := by
          rcases not_or.mp hstop with ⟨-, h10⟩; omega
        exact ih _ acc2 res h10 h
    · simp only [hcur, if_false, Option.some.injEq] at h
      rw [← h]
      omega

/-- C10: with `sectors_per_cluster ≥ 1`, `bytes_per_sector ≥ 1` and
sector reads returning the requested number of bytes,
`read_cluster_chain` terminates with a result, that result holds at
most 10 MiB plus one cluster of bytes, and a start cluster `≤ 0`
yields the empty buffer. -/
theorem read_cluster_chain_terminates_bounded (rs : Int → Nat → Nat → List Nat)
    (start_cluster : Int) (fat : List Nat) (fat_type : String) (ds : Int)
    (spc bps : Nat) (hspc : 1 ≤ spc) (hbps : 1 ≤ bps)
    (hlen : ∀ s, (rs s spc bps).length = spc * bps) :
    (∃ res, read_cluster_chain rs start_cluster fat fat_type ds spc bps = some res ∧
        res.length ≤ 10 * 1024 * 1024 + spc * bps) ∧
    (start_cluster ≤ 0 →
      read_cluster_chain rs start_cluster fat fat_type ds spc bps = some []) := by
  have hpos : 1 ≤ spc * bps := Nat.one_le_iff_ne_zero.mpr (by positivity)
  constructor
  · by_cases hstart : start_cluster ≤ 0
    · exact ⟨[], by simp [read_cluster_chain, hstart], by simp⟩
    · have hsome := read_cluster_chain_aux_isSome rs fat fat_type ds spc bps hlen hpos
        (10 * 1024 * 1024 + 3) start_cluster.toNat [] (by simp) (by simp)
      rcases Option.isSome_iff_exists.mp hsome with ⟨res, hres⟩
      refine ⟨res, by simp [read_cluster_chain, hstart, hres], ?_⟩
      exact read_cluster_chain_aux_length_le rs fat fat_type ds spc bps hlen
        (10 * 1024 * 1024 + 3) start_cluster.toNat [] res (by simp) hres
  · intro hstart
    simp [read_cluster_chain, hstart]

/-- Witness for C10 at concrete inputs: one-byte sectors, an empty FAT
(so the first lookup returns 0) and start cluster 5. -/
theorem read_cluster_chain_terminates_bounded_witness :
    (1 ≤ 1 ∧
      (∃ res, read_cluster_chain (fun _ _ _ => [0]) 5 [] "FAT16" 0 1 1 = some res ∧
          res.length ≤ 10 * 1024 * 1024 + 1 * 1)) ∧
    ((-3 : Int) ≤ 0 ∧
      read_cluster_chain (fun _ _ _ => [0]) (-3) [] "FAT16" 0 1 1 = some []) := by
  refine ⟨⟨le_refl 1, ?_⟩, ⟨by decide, ?_⟩⟩
  · exact (read_cluster_chain_terminates_bounded (fun _ _ _ => [0]) 5 [] "FAT16" 0 1 1
      (le_refl 1) (le_refl 1) (fun s => rfl)).1
  · exact (read_cluster_chain_terminates_bounded (fun _ _ _ => [0]) (-3) [] "FAT16" 0 1 1
      (le_refl 1) (le_refl 1) (fun s => rfl)).2 (by decide)

/-- C2 counterexample: with start cluster 2 and a FAT whose entry 2 is
0 (value 0 reached immediately after the first cluster, i.e. before any
end-of-chain marker), the chain reader returns the accumulated cluster
data `[7]` as its ordinary, non-error result; no `CorruptChain` error
exists anywhere in its result type or in the source function, which
only breaks out of its loop and returns the bytes gathered so far. -/
theorem read_cluster_chain_zero_entry_counterexample :
    read_cluster_chain (fun _ _ _ => [7]) 2 [0, 0, 0, 0, 0, 0] "FAT16" 10 1 1 =
      some [7] ∧ ([7] : List Nat) ≠ [] := by
  constructor
  · rfl
  · decide

/-- C2 amended: when the FAT entry of the start cluster is 0 (a zero
entry mid-chain, hit before any end-of-chain marker), the chain reader
stops and returns the data of the clusters accumulated so far — here
exactly the first cluster's bytes — as a normal successful result; no
error is reported. (Revisited clusters are likewise never detected: the
walk only ever stops on the end marker, a zero entry, or the 10 MiB
cap.) -/
theorem read_cluster_chain_zero_entry_returns_data (rs : Int → Nat → Nat → List Nat)
    (start_cluster : Int) (fat : List Nat) (fat_type : String) (ds : Int)
    (spc bps : Nat) (hpos : 0 < start_cluster)
    (hlt : start_cluster.toNat < end_marker fat_type)
    (hzero : read_fat_entry fat start_cluster.toNat fat_type = 0) :
    read_cluster_chain rs start_cluster fat fat_type ds spc bps =
      some (rs (ds + (start_cluster - 2) * (spc : Int)) spc bps) := by
  have hstart : ¬ start_cluster ≤ 0 := by omega
  rw [read_cluster_chain, if_neg hstart]
  have hfuel : (10 * 1024 * 1024 + 3 : Nat) = (10 * 1024 * 1024 + 2) + 1 := rfl
  rw [hfuel, read_cluster_chain_aux_succ]
  simp only [hlt, if_true, hzero, true_or, if_pos, List.nil_append]
  rw [Int.toNat_of_nonneg (by omega)]

/-- Witness for the amended C2 theorem at a concrete input: start
cluster 3, FAT16, FAT entry 3 equal to 0. -/
theorem read_cluster_chain_zero_entry_returns_data_witness :
    ((0 : Int) < 3 ∧ (3 : Int).toNat < end_marker "FAT16" ∧
      read_fat_entry [0, 0, 0, 0, 0, 0, 0, 0] 3 "FAT16" = 0) ∧
    read_cluster_chain (fun s _ _ => [s.toNat]) 3 [0, 0, 0, 0, 0, 0, 0, 0]
        "FAT16" 10 1 1 =
      some ((fun (s : Int) (_ _ : Nat) => [s.toNat]) (10 + (3 - 2) * 1) 1 1) := by
  refine ⟨⟨by decide, by decide, by decide⟩, ?_⟩
  exact read_cluster_chain_zero_entry_returns_data (fun s _ _ => [s.toNat]) 3
    [0, 0, 0, 0, 0, 0, 0, 0] "FAT16" 10 1 1 (by decide) (by decide) (by decide)

/-- C4 counterexample: a directory buffer whose first 32-byte record
has first byte 0x00 (the end-of-directory marker), followed by a
short-form record for the file "HI" (start cluster 5, size 3). The
decoder still decodes and emits the record after the marker, so
enumeration does not stop there. -/
theorem parse_entries_after_terminator_counterexample :
    (parse_directory_entries (List.replicate 32 0 ++
        [72, 73, 32, 32, 32, 32, 32, 32, 32, 32, 32, 32, 0, 0, 0, 0, 0, 0,
          0, 0, 0, 0, 0, 0, 0, 0, 5, 0, 3, 0, 0, 0])).map DirEntry.full_name
        = ["HI"] ∧
    (parse_directory_entries (List.replicate 32 0 ++
        [72, 73, 32, 32, 32, 32, 32, 32, 32, 32, 32, 32, 0, 0, 0, 0, 0, 0,
          0, 0, 0, 0, 0, 0, 0, 0, 5, 0, 3, 0, 0, 0])).map DirEntry.start_cluster
        = [5] := by
  decide

/-- C4 amended: a 32-byte record whose first byte is 0x00 is skipped —
the enumeration continues with the following records, keeping the LFN
accumulator — rather than terminating the scan. -/
theorem parse_zero_record_skipped (b1 b2 b3 b4 b5 b6 b7 b8 b9 b10 b11 b12 b13
    b14 b15 b16 b17 b18 b19 b20 b21 b22 b23 b24 b25 b26 b27 b28 b29 b30 b31 :
    Nat) (rest : List Nat) (current_lfn : String) :
    parse_directory_entries_from
      (0 :: b1 :: b2 :: b3 :: b4 :: b5 :: b6 :: b7 :: b8 :: b9 :: b10 :: b11 ::
        b12 :: b13 :: b14 :: b15 :: b16 :: b17 :: b18 :: b19 :: b20 :: b21 ::
        b22 :: b23 :: b24 :: b25 :: b26 :: b27 :: b28 :: b29 :: b30 :: b31 ::
        rest) current_lfn =
    parse_directory_entries_from rest current_lfn := rfl

/-- C3 counterexample: an LFN slot assembling the name "AB" whose
stored checksum byte (offset 13) is 0, followed by a short entry
"HELLO.TXT" whose short-name checksum (sum of bytes rotated right) is
not 0. The decoder still uses "AB" as the display name: no checksum
comparison guards the use of the accumulated LFN. -/
theorem parse_lfn_without_checksum_counterexample :
    (parse_directory_entries
        ([0x41, 65, 0, 66, 0, 0, 0, 255, 255, 255, 255, 0x0F, 0, 0, 255, 255,
          255, 255, 255, 255, 255, 255, 255, 255, 255, 255, 0, 0, 255, 255,
          255, 255] ++
         [72, 69, 76, 76, 79, 32, 32, 32, 84, 88, 84, 32, 0, 0, 0, 0, 0, 0,
          0, 0, 0, 0, 0, 0, 0, 0, 9, 0, 4, 0, 0, 0])).map DirEntry.full_name
      = ["AB"] ∧
    lfn_checksum_spec
        ([72, 69, 76, 76, 79, 32, 32, 32, 84, 88, 84, 32, 0, 0, 0, 0, 0, 0,
          0, 0, 0, 0, 0, 0, 0, 0, 9, 0, 4, 0, 0, 0].take 11) ≠
      ([0x41, 65, 0, 66, 0, 0, 0, 255, 255, 255, 255, 0x0F, 0, 0, 255, 255,
          255, 255, 255, 255, 255, 255, 255, 255, 255, 255, 0, 0, 255, 255,
          255, 255].getD 13 0) := by
  decide

/-- C3 amended: a short-form entry reached with a non-empty accumulated
LFN takes the (character-cleaned) LFN as its display name
unconditionally — no checksum is computed or compared; the cleaned 8.3
name is used only when the accumulator is empty, and `.`/`..` keep
their short names. -/
theorem decode_short_entry_uses_lfn_unconditionally (entry : List Nat)
    (current_lfn : String) (hlfn : current_lfn ≠ "")
    (hdot : clean_83 (entry.take 8) ≠ ".")
    (hdotdot : clean_83 (entry.take 8) ≠ "..") :
    (decode_short_entry entry current_lfn).full_name = clean_full current_lfn := by
  simp [decode_short_entry, hlfn, hdot, hdotdot]

/-- Witness for the amended C3 theorem: the "HELLO.TXT" record of the
counterexample together with the accumulated LFN "AB". -/
theorem decode_short_entry_uses_lfn_unconditionally_witness :
    (("AB" : String) ≠ "" ∧
      clean_83 (([72, 69, 76, 76, 79, 32, 32, 32, 84, 88, 84, 32, 0, 0, 0, 0,
        0, 0, 0, 0, 0, 0, 0, 0, 0, 0, 9, 0, 4, 0, 0, 0] : List Nat).take 8) ≠ "." ∧
      clean_83 (([72, 69, 76, 76, 79, 32, 32, 32, 84, 88, 84, 32, 0, 0, 0, 0,
        0, 0, 0, 0, 0, 0, 0, 0, 0, 0, 9, 0, 4, 0, 0, 0] : List Nat).take 8) ≠ "..") ∧
    (decode_short_entry
        [72, 69, 76, 76, 79, 32, 32, 32, 84, 88, 84, 32, 0, 0, 0, 0, 0, 0, 0,
          0, 0, 0, 0, 0, 0, 0, 9, 0, 4, 0, 0, 0] "AB").full_name =
      clean_full "AB" := by
  refine ⟨⟨by decide, by decide, by decide⟩, ?_⟩
  exact decode_short_entry_uses_lfn_unconditionally
    [72, 69, 76, 76, 79, 32, 32, 32, 84, 88, 84, 32, 0, 0, 0, 0, 0, 0, 0, 0,
      0, 0, 0, 0, 0, 0, 9, 0, 4, 0, 0, 0] "AB" (by decide) (by decide)
    (by decide)

set_option maxRecDepth 8000 in
/-- C1: evaluation of `extract_fat_info` at a boot sector with
`total_sectors = 4100`, `bytes_per_sector = 512`,
`sectors_per_cluster = 1`, `reserved_sectors = 1`, `num_fats = 2`,
`sectors_per_fat = 8`, `root_entries = 512`. Its own returned
`total_clusters` is 4051, which is below 4085, yet the function reports
FAT16 because it thresholds `total_sectors` (4100 ≥ 4085); the
boot-sector parser's classifier `determine_fat_type` maps the same
cluster count to FAT12. -/
theorem extract_fat_info_classifies_by_total_sectors :
    ((extract_fat_info
        ((((((((((((List.replicate 512 0).set 12 2).set 13 1).set 14 1).set
          16 2).set 18 2).set 19 4).set 20 16).set 21 0xF8).set 22 8).set
          510 0x55).set 511 0xAA)).toOption.map FatInfo.fat_type = some 16 ∧
      (extract_fat_info
        ((((((((((((List.replicate 512 0).set 12 2).set 13 1).set 14 1).set
          16 2).set 18 2).set 19 4).set 20 16).set 21 0xF8).set 22 8).set
          510 0x55).set 511 0xAA)).toOption.map FatInfo.total_clusters =
        some 4051) ∧
    determine_fat_type 4051 = 12 := by
  decide

/-- Truncating after an append equals truncating the append. -/
theorem take_append_take (n : Nat) (l r : List Nat) :
    (l.take n ++ r).take n = (l ++ r).take n := by
  rw [List.take_append_eq_append_take, List.take_append_eq_append_take,
    List.take_take n n, Nat.min_self, List.length_take]
  have h : n - min n l.length = n - l.length := by omega
  rw [h]

/-- The write step of the deleted-file loop is truncation to
`file_size` once the accumulator fits in `file_size`. -/
theorem rdf_write_take (file_size : Nat) (acc d : List Nat)
    (h : acc.length ≤ file_size) :
    rdf_write file_size acc d = (acc ++ d).take file_size := by
  unfold rdf_write
  by_cases hgt : acc.length + d.length > file_size
  · rw [if_pos hgt, List.take_append_eq_append_take, List.take_of_length_le h]
  · rw [if_neg hgt]
    refine (List.take_of_length_le ?_).symm
    rw [List.length_append]
    omega

/-- The deleted-file cluster loop produces the concatenation of its
cluster reads truncated to `file_size`. -/
theorem rdf_loop_take (rs : Int → Nat → Nat → List Nat) (ss : Int)
    (spc bps fs : Nat) :
    ∀ (idxs : List Nat) (acc : List Nat), acc.length ≤ fs →
      rdf_loop rs ss spc bps fs idxs acc =
        (acc ++ idxs.flatMap
          (fun i => rs (ss + (i : Int) * (spc : Int)) spc bps)).take fs := by
  intro idxs
  induction idxs with
  | nil =>
    intro acc h
    simp [rdf_loop, List.take_of_length_le h]
  | cons i is ih =>
    intro acc h
    rw [rdf_loop, rdf_write_take _ _ _ h]
    rw [ih _ (by rw [List.length_take]; omega)]
    rw [List.flatMap_cons, ← List.append_assoc]
    exact take_append_take fs _ _

/-- Length of a concatenation of equal-length blocks. -/
theorem flatMap_length_const (f : Nat → List Nat) (c : Nat)
    (h : ∀ i, (f i).length = c) :
    ∀ idxs : List Nat, (idxs.flatMap f).length = idxs.length * c := by
  intro idxs
  induction idxs with
  | nil => simp
  | cons i is ih =>
    rw [List.flatMap_cons, List.length_append, h, ih, List.length_cons]
    ring

/-- Ceiling division recovers at least the numerator. -/
theorem ceil_div_mul_ge (fs bpc : Nat) (hb : 0 < bpc) :
    fs ≤ ((fs + bpc - 1) / bpc) * bpc := by
  rcases Nat.eq_zero_or_pos fs with rfl | hfs
  · exact Nat.zero_le _
  · have he : fs + bpc - 1 = (fs - 1) + bpc := by omega
    rw [he, Nat.add_div_right _ hb]
    by_contra hlt
    push_neg at hlt
    have h1 : ((fs - 1) / bpc + 1) * bpc ≤ fs - 1 := by omega
    have h2 : (fs - 1) / bpc + 1 ≤ (fs - 1) / bpc :=
      (Nat.le_div_iff_mul_le hb).mpr h1
    omega

/-- C7: for a recovery request with `start_cluster ≥ 2` on a valid
boot sector, the extractor reads exactly
`⌈file_size / bytes_per_cluster⌉` consecutive clusters starting at
`start_cluster` (sectors `start_sector + i * spc`, ignoring the FAT)
and produces exactly `file_size` bytes, truncating the final cluster;
a request with `start_cluster < 2` returns failure without producing
file data. -/
theorem recover_deleted_file_spec :
    (∀ (rs : Int → Nat → Nat → List Nat) (boot_sector : List Nat)
        (start_cluster : Int) (file_size bps spc data_start clusters_needed : Nat)
        (start_sector : Int),
      le16 boot_sector 11 = bps →
      boot_sector.getD 13 0 = spc →
      24 ≤ boot_sector.length → 1 ≤ bps → 1 ≤ spc → 2 ≤ start_cluster →
      le16 boot_sector 14 + boot_sector.getD 16 0 * le16 boot_sector 22 +
          (le16 boot_sector 17 * 32 + (bps - 1)) / bps = data_start →
      (data_start : Int) + (start_cluster - 2) * (spc : Int) = start_sector →
      (file_size + bps * spc - 1) / (bps * spc) = clusters_needed →
      (∀ s, (rs s spc bps).length = bps * spc) →
      recover_deleted_file rs boot_sector start_cluster file_size =
          .ok (some (((List.range clusters_needed).flatMap
            (fun i => rs (start_sector + (i : Int) * (spc : Int)) spc bps)).take
              file_size)) ∧
        (((List.range clusters_needed).flatMap
            (fun i => rs (start_sector + (i : Int) * (spc : Int)) spc bps)).take
              file_size).length = file_size) ∧
    (∀ (rs : Int → Nat → Nat → List Nat) (boot_sector : List Nat)
        (start_cluster : Int) (file_size : Nat),
      24 ≤ boot_sector.length → 1 ≤ le16 boot_sector 11 → start_cluster < 2 →
      recover_deleted_file rs boot_sector start_cluster file_size = .ok none) := by
  constructor
  · intro rs boot_sector start_cluster file_size bps spc data_start
      clusters_needed start_sector hbps hspc hlen hbps1 hspc1 hsc hds hss hcn hrs
    subst hbps hspc hds hss hcn
    have hlen24 : ¬ boot_sector.length < 24 := by omega
    have hbps0 : ¬ le16 boot_sector 11 = 0 := by omega
    have hsc2 : ¬ start_cluster < 2 := by omega
    have hbpc0 : ¬ le16 boot_sector 11 * boot_sector.getD 13 0 = 0 := by
      positivity
    constructor
    · simp only [recover_deleted_file]
      rw [if_neg hlen24, if_neg hbps0, if_neg hsc2, if_neg hbpc0]
      rw [rdf_loop_take rs _ _ _ _ _ [] (by simp)]
      rw [List.nil_append]
    · rw [List.length_take,
        flatMap_length_const _ (le16 boot_sector 11 * boot_sector.getD 13 0)
          (fun i => hrs _) _]
      rw [List.length_range]
      have hge := ceil_div_mul_ge file_size
        (le16 boot_sector 11 * boot_sector.getD 13 0) (by positivity)
      omega
  · intro rs boot_sector start_cluster file_size hlen hbps hsc
    have hlen24 : ¬ boot_sector.length < 24 := by omega
    have hbps0 : ¬ le16 boot_sector 11 = 0 := by omega
    rw [recover_deleted_file, if_neg hlen24, if_neg hbps0, if_pos hsc]

/-- Witness for C7 at concrete inputs: a 24-byte boot prefix with
`bps = 1`, `spc = 1`, `reserved = 1`, one FAT of one sector, no root
entries; recovering 3 bytes from cluster 2, and a failing request from
cluster -1. -/
theorem recover_deleted_file_spec_witness :
    (recover_deleted_file (fun s _ _ => [s.toNat])
        [0, 0, 0, 0, 0, 0, 0, 0, 0, 0, 0, 1, 0, 1, 1, 0, 1, 0, 0, 0, 0, 0, 1, 0]
        2 3 =
        .ok (some (((List.range 3).flatMap
          (fun i => (fun (s : Int) (_ _ : Nat) => [s.toNat])
            ((2 : Int) + (i : Int) * ((1 : Nat) : Int)) 1 1)).take 3)) ∧
      (((List.range 3).flatMap
          (fun i => (fun (s : Int) (_ _ : Nat) => [s.toNat])
            ((2 : Int) + (i : Int) * ((1 : Nat) : Int)) 1 1)).take 3).length = 3) ∧
    recover_deleted_file (fun s _ _ => [s.toNat])
        [0, 0, 0, 0, 0, 0, 0, 0, 0, 0, 0, 1, 0, 1, 1, 0, 1, 0, 0, 0, 0, 0, 1, 0]
        (-1) 3 = .ok none := by
  constructor
  · exact recover_deleted_file_spec.1 (fun s _ _ => [s.toNat])
      [0, 0, 0, 0, 0, 0, 0, 0, 0, 0, 0, 1, 0, 1, 1, 0, 1, 0, 0, 0, 0, 0, 1, 0]
      2 3 1 1 2 3 2 (by decide) (by decide) (by decide) (by decide) (by decide)
      (by decide) (by decide) (by decide) (by decide) (fun s => rfl)
  · exact recover_deleted_file_spec.2 (fun s _ _ => [s.toNat])
      [0, 0, 0, 0, 0, 0, 0, 0, 0, 0, 0, 1, 0, 1, 1, 0, 1, 0, 0, 0, 0, 0, 1, 0]
      (-1) 3 (by decide) (by decide) (by decide)

/-- C5: for every carve invocation on a known file type with a footer
in the table (here JPEG, as in the spec's carve scenario), and for any
start sector, size cap and sector size, `carve_file` ends in an
`AttributeError` raised at `sig_info.get('footer', None)` — the
signature selection yields the dict key string "extension" — so no
sector is read and no footer search ever runs. -/
theorem carve_file_known_type_attribute_error
    (start_sector max_size bytes_per_sector : Nat) :
    carve_sig_selection "JPEG" = some "extension" ∧
    carve_file start_sector "JPEG" max_size bytes_per_sector =
      CarveOutcome.attributeError := by
  constructor
  · decide
  · rw [carve_file]
    have h : carve_sig_selection "JPEG" = some "extension" := by decide
    rw [h]

set_option maxRecDepth 8000 in
/-- C6 counterexample: with every sector of the volume holding the same
512-byte buffer whose signature is 0x55AA, `bytes_per_sector` is 512,
`sectors_per_cluster` is 1 but `num_fats` (byte 16) is 9, the primary
scan accepts candidates at sectors 0 through 9: sector 0 is examined
(the claim says sectors 1..9 plus 6 and 12), and a sector with
`num_fats = 9 ∉ {1, 2}` is accepted (the claim says `num_fats` must be
in {1, 2}). -/
theorem recover_boot_scan_counterexample :
    ((recover_boot_candidates (fun _ =>
        ((((((List.replicate 512 0).set 12 2).set 13 1).set 16 9).set
          510 0x55).set 511 0xAA))).map BootCandidate.sector =
      List.range 10) ∧
    ((((((List.replicate 512 0).set 12 2).set 13 1).set 16 9).set
        510 0x55).set 511 0xAA).getD 16 0 = 9 := by
  constructor
  · decide
  · decide

/-- C6 amended: the primary scan examines exactly sectors 0 through 9
(its result depends on no other sector, and every candidate it emits
came from one of those sectors), accepting a sector exactly when its
last two bytes are 0x55AA, `bytes_per_sector ∈ {512, 1024, 2048, 4096}`
and `sectors_per_cluster ∈ {1, 2, 4, 8, 16, 32, 64, 128}` — `num_fats`
is never checked; the fallback (`rebuild_boot_sector`) examines exactly
sectors 6 and 12, restricting `sectors_per_cluster` to
{1, 2, 4, 8, 16, 32}. -/
theorem recover_boot_scan_spec :
    (∀ v1 v2 : Nat → List Nat, (∀ s, s < 10 → v1 s = v2 s) →
      recover_boot_candidates v1 = recover_boot_candidates v2) ∧
    (∀ (v : Nat → List Nat) (c : BootCandidate), c ∈ recover_boot_candidates v →
      c.sector < 10 ∧ ((v c.sector).drop 510).take 2 = [0x55, 0xAA] ∧
        c.bytes_per_sector = le16 (v c.sector) 11 ∧
        c.sectors_per_cluster = (v c.sector).getD 13 0 ∧
        c.bytes_per_sector ∈ [512, 1024, 2048, 4096] ∧
        c.sectors_per_cluster ∈ [1, 2, 4, 8, 16, 32, 64, 128]) ∧
    (∀ v1 v2 : Nat → List Nat, v1 6 = v2 6 → v1 12 = v2 12 →
      rebuild_backup_candidate v1 = rebuild_backup_candidate v2) ∧
    (∀ (v : Nat → List Nat) (s : Nat) (data : List Nat),
      rebuild_backup_candidate v = some (s, data) →
      (s = 6 ∨ s = 12) ∧ data = v s ∧
        ((data.drop 510).take 2 = [0x55, 0xAA] ∧
          le16 data 11 ∈ [512, 1024, 2048, 4096] ∧
          data.getD 13 0 ∈ [1, 2, 4, 8, 16, 32])) := by
  have hcheck : ∀ (v : Nat → List Nat) (bs s : Nat) (data : List Nat),
      rebuild_backup_check v bs = some (s, data) →
      s = bs ∧ data = v bs ∧
        ((data.drop 510).take 2 = [0x55, 0xAA] ∧
          le16 data 11 ∈ [512, 1024, 2048, 4096] ∧
          data.getD 13 0 ∈ [1, 2, 4, 8, 16, 32]) := by
    intro v bs s data h
    simp only [rebuild_backup_check] at h
    by_cases h1 : ((v bs).drop 510).take 2 = [0x55, 0xAA]
    · rw [if_pos h1] at h
      by_cases h2 : le16 (v bs) 11 ∈ [512, 1024, 2048, 4096] ∧
          (v bs).getD 13 0 ∈ [1, 2, 4, 8, 16, 32]
      · rw [if_pos h2, Option.some_inj] at h
        injection h with hA hB
        subst hA
        subst hB
        exact ⟨rfl, rfl, h1, h2.1, h2.2⟩
      · rw [if_neg h2] at h
        exact absurd h (by simp)
    · rw [if_neg h1] at h
      exact absurd h (by simp)
  refine ⟨?_, ?_, ?_, ?_⟩
  · intro v1 v2 hv
    rw [recover_boot_candidates, recover_boot_candidates]
    refine List.filterMap_congr (fun s hs => ?_)
    rw [hv s (List.mem_range.mp hs)]
  · intro v c hc
    simp only [recover_boot_candidates, List.mem_filterMap, List.mem_range] at hc
    obtain ⟨s, hs, hf⟩ := hc
    by_cases h1 : ((v s).drop 510).take 2 = [0x55, 0xAA]
    · rw [if_pos h1] at hf
      by_cases h2 : le16 (v s) 11 ∈ [512, 1024, 2048, 4096] ∧
          (v s).getD 13 0 ∈ [1, 2, 4, 8, 16, 32, 64, 128]
      · rw [if_pos h2, Option.some_inj] at hf
        subst hf
        exact ⟨hs, h1, rfl, rfl, h2.1, h2.2⟩
      · rw [if_neg h2] at hf
        exact absurd hf (by simp)
    · rw [if_neg h1] at hf
      exact absurd hf (by simp)
  · intro v1 v2 h6 h12
    rw [rebuild_backup_candidate, rebuild_backup_candidate,
      rebuild_backup_check, rebuild_backup_check, h6,
      rebuild_backup_check, rebuild_backup_check, h12]
  · intro v s data h
    rw [rebuild_backup_candidate] at h
    rcases h6 : rebuild_backup_check v 6 with - | r
    · rw [h6] at h
      obtain ⟨hs, hd, hrest⟩ := hcheck v 12 s data h
      exact ⟨Or.inr hs, hs ▸ hd, hrest⟩
    · rw [h6] at h
      rw [Option.some_inj] at h
      subst h
      obtain ⟨hs, hd, hrest⟩ := hcheck v 6 s data h6
      exact ⟨Or.inl hs, hs ▸ hd, hrest⟩

set_option maxRecDepth 8000 in
/-- Witness for the amended C6 theorem at concrete inputs: two volumes
agreeing on sectors 0..9 yield the same candidates, and the concrete
backup probe result at sector 6 satisfies the stated conditions. -/
theorem recover_boot_scan_spec_witness :
    ((∀ s, s < 10 → (fun _ => ([] : List Nat)) s =
        (fun n => if n < 10 then ([] : List Nat) else [1]) s) ∧
      recover_boot_candidates (fun _ => ([] : List Nat)) =
        recover_boot_candidates (fun n => if n < 10 then ([] : List Nat) else [1])) ∧
    (rebuild_backup_candidate (fun _ =>
        ((((((List.replicate 512 0).set 12 2).set 13 1).set 16 9).set
          510 0x55).set 511 0xAA)) =
      some (6, ((((((List.replicate 512 0).set 12 2).set 13 1).set 16 9).set
          510 0x55).set 511 0xAA)) ∧
      ((6 = 6 ∨ 6 = 12) ∧
        ((((((List.replicate 512 0).set 12 2).set 13 1).set 16 9).set
          510 0x55).set 511 0xAA) = ((((((List.replicate 512 0).set 12 2).set
          13 1).set 16 9).set 510 0x55).set 511 0xAA) ∧
        ((((((((List.replicate 512 0).set 12 2).set 13 1).set 16 9).set
            510 0x55).set 511 0xAA).drop 510).take 2 = [0x55, 0xAA] ∧
          le16 ((((((List.replicate 512 0).set 12 2).set 13 1).set 16 9).set
            510 0x55).set 511 0xAA) 11 ∈ [512, 1024, 2048, 4096] ∧
          ((((((List.replicate 512 0).set 12 2).set 13 1).set 16 9).set
            510 0x55).set 511 0xAA).getD 13 0 ∈ [1, 2, 4, 8, 16, 32]))) := by
  refine ⟨⟨?_, ?_⟩, ?_, ?_⟩
  · intro s hs
    simp [hs]
  · exact recover_boot_scan_spec.1 _ _ (fun s hs => by simp [hs])
  · decide
  · exact recover_boot_scan_spec.2.2.2
      (fun _ => ((((((List.replicate 512 0).set 12 2).set 13 1).set 16 9).set
        510 0x55).set 511 0xAA)) 6
      ((((((List.replicate 512 0).set 12 2).set 13 1).set 16 9).set
        510 0x55).set 511 0xAA) (by decide)

/-- C9 counterexample: it is not the case that every sector-0-writing
flow requires the token "yes" or "y": the `--apply-boot` flow performs
the write although the user typed "no" (indeed it prompts for
nothing). -/
theorem apply_boot_no_confirmation_counterexample :
    ¬ (∀ (f : WriteFlow) (confirm : String),
        flow_writes_sector0 f confirm = true →
        py_lower (py_strip confirm) = "yes" ∨ py_lower (py_strip confirm) = "y") := by
  intro h
  rcases h .applyBoot "no" rfl with h1 | h1 <;> revert h1 <;> decide

/-- C9 amended: the interactive-repair flow writes sector 0 exactly
when the typed confirmation, stripped then lowercased, is exactly "y"
(so typing "yes" cancels); the monolithic repair flow writes exactly
when the confirmation, lowercased then stripped, is "yes" or "y"; and
the `--apply-boot` flow writes sector 0 without obtaining any
confirmation at all. -/
theorem sector0_write_confirmation_spec :
    (∀ confirm : String,
      flow_writes_sector0 .interactiveRepair confirm = true ↔
        py_lower (py_strip confirm) = "y") ∧
    (∀ confirm : String,
      flow_writes_sector0 .monolithicRepair confirm = true ↔
        (py_strip (py_lower confirm) = "yes" ∨ py_strip (py_lower confirm) = "y")) ∧
    (∀ confirm : String, flow_writes_sector0 .applyBoot confirm = true) := by
  refine ⟨?_, ?_, ?_⟩
  · intro confirm
    simp [flow_writes_sector0, interactive_repair_confirm_ok]
  · intro confirm
    simp [flow_writes_sector0, write_boot_sector_confirm_ok]
  · intro confirm
    rfl

end FatRec
